import Mathlib

/-!
Shallow embedding of the evaluation scripts `run_metrics_to_csv.py` and
`run_metrics_to_csv_DeepSeek.py` of the KGQA final-year project.

The scripts score a language model's generated SPARQL queries against gold
queries.  `calculate_counts` walks a list of test cases, runs candidate and
gold queries through an external graph executor, and accumulates query-level
and item-level confusion counts, overall and per question type.
`compute_metrics` derives accuracy/precision/recall/etc. from raw counts.

The external executor is modelled as an oracle `exec : String → Option (Finset α)`
where `none` models a raised exception (including a timeout) and `some s`
models a successful query returning the result set `s`.  Python's numeric
division is modelled over `ℚ`.  Python local-variable semantics matter here:
`generated_results` and `sample_results` are function-local names that persist
across loop iterations and are unbound before their first assignment; the
`LoopState` carries them as `Option (Finset α)` fields, and referencing an
unbound one is the `Except.error` case (Python's `UnboundLocalError`).
-/

namespace KGQA

/-- A confusion-count record: the `{"TP": 0, "FN": 0, "FP": 0, "TN": 0}`
dictionaries of `calculate_counts`. -/
structure Counts where
  TP : ℕ
  FN : ℕ
  FP : ℕ
  TN : ℕ
deriving DecidableEq

/-- The all-zero counts dictionary. -/
def Counts.zero : Counts := ⟨0, 0, 0, 0⟩

/-- Field-wise addition of two count records; this is the combine operation
underlying the script's `+=` accumulation of counts. -/
def Counts.add (a b : Counts) : Counts :=
  ⟨a.TP + b.TP, a.FN + b.FN, a.FP + b.FP, a.TN + b.TN⟩

/-- One entry of the JSON results list, keeping the fields `calculate_counts`
reads.  `none` models an absent key; `some ""` an empty string value. -/
structure DataPoint where
  sparql_response : Option String
  generated_sparql : Option String
  sparql : Option String
  question_type : Option String
deriving DecidableEq

/-- Python truthiness of an optional string: `None` and `""` are falsy. -/
def truthy : Option String → Bool
  | none => false
  | some s => if s = "" then false else true

/-- Python `a or b` on optional strings: yields `a` when `a` is truthy,
otherwise `b`.  Models `data_point.get("sparql_response") or
data_point.get("generated_sparql")`. -/
def pyOr (a b : Option String) : Option String :=
  if truthy a then a else b

/-- The candidate query of a data point:
`data_point.get("sparql_response") or data_point.get("generated_sparql")`. -/
def DataPoint.candidate (dp : DataPoint) : Option String :=
  pyOr dp.sparql_response dp.generated_sparql

/-- Python `data_point.get("question_type", "unknown")`. -/
def qtypeOf (dp : DataPoint) : String :=
  dp.question_type.getD "unknown"

/-- The guard `if sparql_response and sample_query:` of `calculate_counts`:
the case is scored only when both query strings are present and non-empty. -/
def truthyCase (dp : DataPoint) : Bool :=
  truthy dp.candidate && truthy dp.sparql

/-- The item-level evaluation of `calculate_counts`:
`tp_items = len(generated_results & sample_results)`,
`fn_items = len(sample_results - generated_results)`,
`fp_items = len(generated_results - sample_results)`. -/
def itemCounts {α : Type} [DecidableEq α] (generated sample : Finset α) : ℕ × ℕ × ℕ :=
  ((generated ∩ sample).card, (sample \ generated).card, (generated \ sample).card)

/-- The mutable state of the accumulation loop of `calculate_counts`:
the two overall count dicts, the per-question-type dict (an insertion-ordered
association list, as a Python dict), and the two Python locals
`generated_results` / `sample_results` (`none` = not yet bound). -/
structure LoopState (α : Type) where
  overall_query : Counts
  overall_item : Counts
  type_counts : List (String × Counts × Counts)
  generated_results : Option (Finset α)
  sample_results : Option (Finset α)
deriving DecidableEq

/-- Dictionary lookup in the per-type association list. -/
def lookupType (q : String) : List (String × Counts × Counts) → Option (Counts × Counts)
  | [] => none
  | (k, v) :: rest => if k = q then some v else lookupType q rest

/-- Python `if qtype not in type_counts: type_counts[qtype] = {zero, zero}` —
inserts a fresh all-zero bucket at the end when the key is absent. -/
def ensureType (q : String) (l : List (String × Counts × Counts)) :
    List (String × Counts × Counts) :=
  if lookupType q l = none then l ++ [(q, (Counts.zero, Counts.zero))] else l

/-- In-place update of the bucket stored under key `q` (no-op when absent). -/
def updateType (q : String) (f : Counts × Counts → Counts × Counts) :
    List (String × Counts × Counts) → List (String × Counts × Counts)
  | [] => []
  | (k, v) :: rest =>
      if k = q then (k, f v) :: rest else (k, v) :: updateType q f rest

/-- Python `overall_query["TP"] += 1` and `type_counts[qtype]["query_level"]["TP"] += 1`. -/
def bumpQueryTP {α : Type} (q : String) (st : LoopState α) : LoopState α :=
  { st with
    overall_query := { st.overall_query with TP := st.overall_query.TP + 1 }
    type_counts :=
      updateType q (fun p => ({ p.1 with TP := p.1.TP + 1 }, p.2)) st.type_counts }

/-- Python `overall_query["FN"] += 1` and `type_counts[qtype]["query_level"]["FN"] += 1`. -/
def bumpQueryFN {α : Type} (q : String) (st : LoopState α) : LoopState α :=
  { st with
    overall_query := { st.overall_query with FN := st.overall_query.FN + 1 }
    type_counts :=
      updateType q (fun p => ({ p.1 with FN := p.1.FN + 1 }, p.2)) st.type_counts }

/-- Adds the item-level triple to the overall item counts and the bucket's
item counts. -/
def addItem {α : Type} (q : String) (tp fn fp : ℕ) (st : LoopState α) : LoopState α :=
  { st with
    overall_item :=
      { st.overall_item with
        TP := st.overall_item.TP + tp
        FN := st.overall_item.FN + fn
        FP := st.overall_item.FP + fp }
    type_counts :=
      updateType q
        (fun p =>
          (p.1,
            { p.2 with TP := p.2.TP + tp, FN := p.2.FN + fn, FP := p.2.FP + fp }))
        st.type_counts }

/-- The `try` block of `calculate_counts`: run the candidate query, then the
gold query, score the query level, and record the assignments to the locals
`generated_results` / `sample_results` exactly as far as execution got before
the exception (a raise in the first call leaves both locals untouched; a raise
in the second call leaves only `generated_results` freshly assigned). -/
def tryBlock {α : Type} [DecidableEq α] (exec : String → Option (Finset α))
    (q cand gold : String) (st : LoopState α) : LoopState α :=
  match exec cand with
  | none => bumpQueryFN q st
  | some g =>
    match exec gold with
    | none => { bumpQueryFN q st with generated_results := some g }
    | some s =>
      if g = s then
        { bumpQueryTP q st with generated_results := some g, sample_results := some s }
      else
        { bumpQueryFN q st with generated_results := some g, sample_results := some s }

/-- One iteration of the loop body of `calculate_counts` on one data point.
The item-level block sits outside the `try`, so it reads whatever the locals
hold; if either local is still unbound, Python raises `UnboundLocalError`,
modelled as `Except.error`. -/
def processPoint {α : Type} [DecidableEq α] (exec : String → Option (Finset α))
    (st : LoopState α) (dp : DataPoint) : Except String (LoopState α) :=
  let q := qtypeOf dp
  let st0 : LoopState α := { st with type_counts := ensureType q st.type_counts }
  if truthyCase dp then
    let st1 := tryBlock exec q (dp.candidate.getD "") (dp.sparql.getD "") st0
    match st1.generated_results, st1.sample_results with
    | some g, some s =>
        Except.ok (addItem q (itemCounts g s).1 (itemCounts g s).2.1 (itemCounts g s).2.2 st1)
    | _, _ => Except.error "UnboundLocalError"
  else
    Except.ok st0

/-- The loop of `calculate_counts` over the results list; an uncaught
exception propagates and aborts the remaining iterations. -/
def runPoints {α : Type} [DecidableEq α] (exec : String → Option (Finset α)) :
    LoopState α → List DataPoint → Except String (LoopState α)
  | st, [] => Except.ok st
  | st, dp :: rest =>
    match processPoint exec st dp with
    | Except.ok st1 => runPoints exec st1 rest
    | Except.error e => Except.error e

/-- The state at entry of `calculate_counts`: zero overall counts, empty
per-type dict, both locals unbound. -/
def initState (α : Type) : LoopState α :=
  ⟨Counts.zero, Counts.zero, [], none, none⟩

/-- Python `calculate_counts(results)` under the executor oracle `exec`. -/
def calculate_counts {α : Type} [DecidableEq α] (exec : String → Option (Finset α))
    (results : List DataPoint) : Except String (LoopState α) :=
  runPoints exec (initState α) results

/-- The record returned by `compute_metrics` of `run_metrics_to_csv.py`.
Python float arithmetic on exact integer counts is modelled over `ℚ`. -/
structure Metrics where
  support : ℚ
  accuracy : ℚ
  error_rate : ℚ
  precision : ℚ
  recallScore : ℚ
  f1_score : ℚ
  false_negative_rate : ℚ
  false_positive_rate : ℚ
deriving DecidableEq

/-- Python `support = counts["TP"] + counts["FN"] + counts["FP"] + counts["TN"]`. -/
def Counts.support (c : Counts) : ℚ :=
  (c.TP : ℚ) + (c.FN : ℚ) + (c.FP : ℚ) + (c.TN : ℚ)

/-- Python `accuracy = ((TP + TN) / support) if support else 0`. -/
def Counts.accuracy (c : Counts) : ℚ :=
  if c.support ≠ 0 then ((c.TP : ℚ) + (c.TN : ℚ)) / c.support else 0

/-- Python `error_rate = 1 - accuracy if support else 0`. -/
def Counts.error_rate (c : Counts) : ℚ :=
  if c.support ≠ 0 then 1 - c.accuracy else 0

/-- Python `precision = TP / (TP + FP) if (TP + FP) else 0`. -/
def Counts.precision (c : Counts) : ℚ :=
  if (c.TP : ℚ) + (c.FP : ℚ) ≠ 0 then (c.TP : ℚ) / ((c.TP : ℚ) + (c.FP : ℚ)) else 0

/-- Python `recall = TP / (TP + FN) if (TP + FN) else 0`. -/
def Counts.recallScore (c : Counts) : ℚ :=
  if (c.TP : ℚ) + (c.FN : ℚ) ≠ 0 then (c.TP : ℚ) / ((c.TP : ℚ) + (c.FN : ℚ)) else 0

/-- Python `f1_score = (2 * precision * recall / (precision + recall)) if (precision + recall) else 0`. -/
def Counts.f1_score (c : Counts) : ℚ :=
  if c.precision + c.recallScore ≠ 0 then
    2 * c.precision * c.recallScore / (c.precision + c.recallScore)
  else 0

/-- Python `fnr = FN / (TP + FN) if (TP + FN) else 0`. -/
def Counts.fnr (c : Counts) : ℚ :=
  if (c.TP : ℚ) + (c.FN : ℚ) ≠ 0 then (c.FN : ℚ) / ((c.TP : ℚ) + (c.FN : ℚ)) else 0

/-- Python `fpr = FP / (TP + FP) if (TP + FP) else 0`. -/
def Counts.fpr (c : Counts) : ℚ :=
  if (c.TP : ℚ) + (c.FP : ℚ) ≠ 0 then (c.FP : ℚ) / ((c.TP : ℚ) + (c.FP : ℚ)) else 0

/-- Python `compute_metrics(counts)` of `run_metrics_to_csv.py`: assembles the
returned dictionary from the intermediate values above. -/
def compute_metrics (c : Counts) : Metrics :=
  ⟨c.support, c.accuracy, c.error_rate, c.precision, c.recallScore, c.f1_score,
    c.fnr, c.fpr⟩

/-!
Embedding of `calculate_item_metrics` of `run_metrics_to_csv_DeepSeek.py`
(the per-case normalization and item-level counting).
-/

/-- The JSON value under the key `"answer"`: a list of strings, or something
that is not a list (which the script warns about and treats as the empty set). -/
inductive AnswerVal where
  | list (l : List String)
  | nonlist
deriving DecidableEq

/-- The JSON value under the key `"deepseek-answer"`: a boolean (ASK query),
a list of strings, or absent. -/
inductive DSAnswer where
  | bool (b : Bool)
  | list (l : List String)
  | absent
deriving DecidableEq

/-- One entry of the DeepSeek results list, keeping the fields
`calculate_item_metrics` reads. -/
structure DSPoint where
  question_type : Option String
  answer : Option AnswerVal
  deepseek_answer : DSAnswer
deriving DecidableEq

/-- Python `correct_answers = data_point.get("answer", [])`, then coerced to a set
(`set()` when the value is not a list). -/
def DSPoint.correctAnswers0 (dp : DSPoint) : Finset String :=
  match dp.answer.getD (AnswerVal.list []) with
  | AnswerVal.list l => l.toFinset
  | AnswerVal.nonlist => ∅

/-- The Yes/No normalization of `calculate_item_metrics`: when
`deepseek-answer` is a boolean, both sides become singleton sets
(`{"yes"}`/`{"no"}`); otherwise the candidate is
`set(data_point.get("deepseek-answer", []))` and the gold set is left as is.
Returns `(correct_answers, deepseek_answer)`. -/
def normalizedSides (dp : DSPoint) : Finset String × Finset String :=
  let c0 := dp.correctAnswers0
  match dp.deepseek_answer with
  | DSAnswer.bool b =>
      ((if "YES" ∈ c0 then {"yes"} else {"no"}), if b then {"yes"} else {"no"})
  | DSAnswer.list l => (c0, l.toFinset)
  | DSAnswer.absent => (c0, (∅ : Finset String))

/-- The per-case triple `(tp_items, fn_items, fp_items)` of
`calculate_item_metrics`:
`tp = len(correct & deepseek)`, `fn = len(correct - deepseek)`,
`fp = len(deepseek - correct)` after normalization. -/
def caseCounts (dp : DSPoint) : ℕ × ℕ × ℕ :=
  let sides := normalizedSides dp
  ((sides.1 ∩ sides.2).card, (sides.1 \ sides.2).card, (sides.2 \ sides.1).card)

/-- The query-level structural invariant of the scoring policy: the
query-level TN and FP counts are zero, overall and in every category bucket. -/
def QInv {α : Type} (st : LoopState α) : Prop :=
  st.overall_query.TN = 0 ∧ st.overall_query.FP = 0 ∧
  ∀ p ∈ st.type_counts, p.2.1.TN = 0 ∧ p.2.1.FP = 0

/-!
Helper lemmas shared by several verification theorems.
-/

/-- A data point whose guard `if sparql_response and sample_query:` is false
is skipped: the loop body only ensures the category bucket exists and leaves
every count and both locals unchanged. -/
theorem processPoint_of_not_truthy {α : Type} [DecidableEq α]
    (exec : String → Option (Finset α)) (st : LoopState α) (dp : DataPoint)
    (h : truthyCase dp = false) :
    processPoint exec st dp =
      Except.ok { st with type_counts := ensureType (qtypeOf dp) st.type_counts } := by
  unfold processPoint
  simp [h]

/-- Unfolding of the loop on an empty results list. -/
theorem runPoints_nil {α : Type} [DecidableEq α] (exec : String → Option (Finset α))
    (st : LoopState α) : runPoints exec st [] = Except.ok st := rfl

/-- Unfolding of the loop on a non-empty results list. -/
theorem runPoints_cons {α : Type} [DecidableEq α] (exec : String → Option (Finset α))
    (st : LoopState α) (dp : DataPoint) (rest : List DataPoint) :
    runPoints exec st (dp :: rest) =
      match processPoint exec st dp with
      | Except.ok st1 => runPoints exec st1 rest
      | Except.error e => Except.error e := rfl

/-- Every member of `updateType q f l` is a member of `l` or the updated
entry of key `q`. -/
theorem mem_updateType (q : String) (f : Counts × Counts → Counts × Counts)
    (l : List (String × Counts × Counts)) (p : String × Counts × Counts)
    (h : p ∈ updateType q f l) : p ∈ l ∨ ∃ v, (q, v) ∈ l ∧ p = (q, f v) := by
  induction l with
  | nil => simp [updateType] at h
  | cons hd tl ih =>
    obtain ⟨k, v⟩ := hd
    simp only [updateType] at h
    split_ifs at h with hk
    · subst hk
      rcases List.mem_cons.mp h with h1 | h1
      · exact Or.inr ⟨v, List.mem_cons_self _ _, h1⟩
      · exact Or.inl (List.mem_cons_of_mem _ h1)
    · rcases List.mem_cons.mp h with h1 | h1
      · exact Or.inl (List.mem_cons.mpr (Or.inl h1))
      · rcases ih h1 with h2 | ⟨w, hw, hp⟩
        · exact Or.inl (List.mem_cons_of_mem _ h2)
        · exact Or.inr ⟨w, List.mem_cons_of_mem _ hw, hp⟩

/-- Every member of `ensureType q l` is a member of `l` or the fresh zero
bucket of key `q`. -/
theorem mem_ensureType (q : String) (l : List (String × Counts × Counts))
    (p : String × Counts × Counts) (h : p ∈ ensureType q l) :
    p ∈ l ∨ p = (q, Counts.zero, Counts.zero) := by
  unfold ensureType at h
  split_ifs at h with hnone
  · rcases List.mem_append.mp h with h1 | h1
    · exact Or.inl h1
    · simp only [List.mem_singleton] at h1
      exact Or.inr h1
  · exact Or.inl h

/-- Updating a different key does not change a lookup. -/
theorem lookupType_updateType_ne (q k : String) (hk : k ≠ q)
    (f : Counts × Counts → Counts × Counts) (l : List (String × Counts × Counts)) :
    lookupType q (updateType k f l) = lookupType q l := by
  induction l with
  | nil => rfl
  | cons hd tl ih =>
    obtain ⟨k1, v⟩ := hd
    simp only [updateType]
    split_ifs with h1
    · subst h1
      simp [lookupType, hk]
    · simp only [lookupType]
      split_ifs with h2
      · rfl
      · exact ih

/-- Appending an entry with a different key does not change a lookup. -/
theorem lookupType_append_single_ne (q k : String) (hk : k ≠ q)
    (z : Counts × Counts) (l : List (String × Counts × Counts)) :
    lookupType q (l ++ [(k, z)]) = lookupType q l := by
  induction l with
  | nil => simp [lookupType, hk]
  | cons hd tl ih =>
    obtain ⟨k1, v⟩ := hd
    simp only [List.cons_append, lookupType]
    split_ifs with h2
    · rfl
    · exact ih

/-- Appending an entry with key `q` to a list with no `q` entry makes the
lookup find it. -/
theorem lookupType_append_single_self (q : String) (z : Counts × Counts)
    (l : List (String × Counts × Counts)) (h : lookupType q l = none) :
    lookupType q (l ++ [(q, z)]) = some z := by
  induction l with
  | nil => simp [lookupType]
  | cons hd tl ih =>
    obtain ⟨k1, v⟩ := hd
    rw [List.cons_append]
    by_cases h2 : k1 = q
    · exfalso
      simp only [lookupType, if_pos h2] at h
      exact Option.some_ne_none v h
    · simp only [lookupType, if_neg h2] at h ⊢
      exact ih h

/-- Ensuring a different key does not change a lookup. -/
theorem lookupType_ensureType_ne (q k : String) (hk : k ≠ q)
    (l : List (String × Counts × Counts)) :
    lookupType q (ensureType k l) = lookupType q l := by
  unfold ensureType
  split_ifs with h
  · exact lookupType_append_single_ne q k hk _ l
  · rfl

/-- After ensuring key `q`, the lookup yields the previous bucket, or the
zero bucket when the key was absent. -/
theorem lookupType_ensureType_self (q : String) (l : List (String × Counts × Counts)) :
    lookupType q (ensureType q l) =
      some ((lookupType q l).getD (Counts.zero, Counts.zero)) := by
  unfold ensureType
  split_ifs with h
  · rw [lookupType_append_single_self q _ l h, h]
    rfl
  · obtain ⟨v, hv⟩ := Option.ne_none_iff_exists'.mp h
    rw [hv]
    rfl

/-- The per-type dict of `addItem` is an update of the key's bucket. -/
theorem addItem_type_counts {α : Type} (q : String) (tp fn fp : ℕ) (st : LoopState α) :
    (addItem q tp fn fp st).type_counts =
      updateType q
        (fun p =>
          (p.1,
            { p.2 with TP := p.2.TP + tp, FN := p.2.FN + fn, FP := p.2.FP + fp }))
        st.type_counts := rfl

/-- A bucket update that touches only query-level TP or FN (or only the
item-level component) preserves zero query-level TN and FP of all entries. -/
theorem qinv_updateType_query (q : String) (f : Counts × Counts → Counts × Counts)
    (hf : ∀ v : Counts × Counts, (f v).1.TN = v.1.TN ∧ (f v).1.FP = v.1.FP)
    (l : List (String × Counts × Counts))
    (hl : ∀ p ∈ l, p.2.1.TN = 0 ∧ p.2.1.FP = 0) :
    ∀ p ∈ updateType q f l, p.2.1.TN = 0 ∧ p.2.1.FP = 0 := by
  intro p hp
  rcases mem_updateType q f l p hp with h | ⟨v, hv, rfl⟩
  · exact hl _ h
  · obtain ⟨h1, h2⟩ := hl _ hv
    obtain ⟨hf1, hf2⟩ := hf v
    exact ⟨by rw [hf1]; exact h1, by rw [hf2]; exact h2⟩

/-- The function `bumpQueryTP` preserves the query-level invariant. -/
theorem qinv_bumpQueryTP {α : Type} (q : String) (st : LoopState α) (h : QInv st) :
    QInv (bumpQueryTP q st) := by
  obtain ⟨h1, h2, h3⟩ := h
  exact ⟨h1, h2, qinv_updateType_query q
    (fun p => ({ p.1 with TP := p.1.TP + 1 }, p.2)) (fun v => ⟨rfl, rfl⟩)
    st.type_counts h3⟩

/-- The function `bumpQueryFN` preserves the query-level invariant. -/
theorem qinv_bumpQueryFN {α : Type} (q : String) (st : LoopState α) (h : QInv st) :
    QInv (bumpQueryFN q st) := by
  obtain ⟨h1, h2, h3⟩ := h
  exact ⟨h1, h2, qinv_updateType_query q
    (fun p => ({ p.1 with FN := p.1.FN + 1 }, p.2)) (fun v => ⟨rfl, rfl⟩)
    st.type_counts h3⟩

/-- The function `addItem` preserves the query-level invariant. -/
theorem qinv_addItem {α : Type} (q : String) (tp fn fp : ℕ) (st : LoopState α)
    (h : QInv st) : QInv (addItem q tp fn fp st) := by
  obtain ⟨h1, h2, h3⟩ := h
  exact ⟨h1, h2, qinv_updateType_query q
    (fun p =>
      (p.1, { p.2 with TP := p.2.TP + tp, FN := p.2.FN + fn, FP := p.2.FP + fp }))
    (fun v => ⟨rfl, rfl⟩) st.type_counts h3⟩

/-- Bucket creation preserves the query-level invariant. -/
theorem qinv_ensureType {α : Type} (q : String) (st : LoopState α) (h : QInv st) :
    QInv { st with type_counts := ensureType q st.type_counts } := by
  obtain ⟨h1, h2, h3⟩ := h
  refine ⟨h1, h2, ?_⟩
  intro p hp
  rcases mem_ensureType q st.type_counts p hp with h4 | rfl
  · exact h3 _ h4
  · exact ⟨rfl, rfl⟩

/-- The `try` block preserves the query-level invariant: it only ever bumps
query-level TP or FN and assigns the locals. -/
theorem qinv_tryBlock {α : Type} [DecidableEq α] (exec : String → Option (Finset α))
    (k c g : String) (st : LoopState α) (h : QInv st) : QInv (tryBlock exec k c g st) := by
  unfold tryBlock
  rcases exec c with _ | gr
  · exact qinv_bumpQueryFN k st h
  · rcases exec g with _ | sr
    · exact qinv_bumpQueryFN k st h
    · dsimp only
      split_ifs with h1
      · exact qinv_bumpQueryTP k st h
      · exact qinv_bumpQueryFN k st h

/-- The item-level block (outside the `try`) preserves the query-level
invariant whenever it succeeds. -/
theorem qinv_itemBlock {α : Type} [DecidableEq α] (k : String) (t st' : LoopState α)
    (hok : (match t.generated_results, t.sample_results with
        | some g, some s =>
            Except.ok (addItem k (itemCounts g s).1 (itemCounts g s).2.1
              (itemCounts g s).2.2 t)
        | _, _ =>
            (Except.error "UnboundLocalError" : Except String (LoopState α)))
      = Except.ok st')
    (h : QInv t) : QInv st' := by
  rcases hg : t.generated_results with _ | g <;> rw [hg] at hok
  · exact Except.noConfusion hok
  · rcases hs : t.sample_results with _ | s <;> rw [hs] at hok
    · exact Except.noConfusion hok
    · obtain rfl := Except.ok.inj hok
      exact qinv_addItem _ _ _ _ _ h

/-- One loop iteration preserves the query-level invariant. -/
theorem qinv_processPoint {α : Type} [DecidableEq α] (exec : String → Option (Finset α))
    (st st' : LoopState α) (dp : DataPoint)
    (hok : processPoint exec st dp = Except.ok st') (h : QInv st) : QInv st' := by
  simp only [processPoint] at hok
  split_ifs at hok with ht
  · exact qinv_itemBlock (qtypeOf dp) _ st' hok
      (qinv_tryBlock _ _ _ _ _ (qinv_ensureType _ _ h))
  · obtain rfl := Except.ok.inj hok
    exact qinv_ensureType _ _ h

/-- The whole loop preserves the query-level invariant. -/
theorem qinv_runPoints {α : Type} [DecidableEq α] (exec : String → Option (Finset α))
    (pts : List DataPoint) :
    ∀ (st st' : LoopState α), QInv st → runPoints exec st pts = Except.ok st' → QInv st' := by
  induction pts with
  | nil =>
    intro st st' h hr
    rw [runPoints_nil] at hr
    obtain rfl := Except.ok.inj hr
    exact h
  | cons dp rest ih =>
    intro st st' h hr
    rw [runPoints_cons] at hr
    rcases hp : processPoint exec st dp with e | st1 <;> rw [hp] at hr
    · exact Except.noConfusion hr
    · exact ih st1 st' (qinv_processPoint exec st st1 dp hp h) hr

/-- The `try` block never touches the bucket of a different category. -/
theorem tryBlock_lookup_ne {α : Type} [DecidableEq α] (exec : String → Option (Finset α))
    (k c g : String) (st : LoopState α) (q : String) (hq : k ≠ q) :
    lookupType q (tryBlock exec k c g st).type_counts = lookupType q st.type_counts := by
  unfold tryBlock
  rcases exec c with _ | gr
  · exact lookupType_updateType_ne q k hq _ st.type_counts
  · rcases exec g with _ | sr
    · exact lookupType_updateType_ne q k hq _ st.type_counts
    · dsimp only
      split_ifs with h1
      · exact lookupType_updateType_ne q k hq _ st.type_counts
      · exact lookupType_updateType_ne q k hq _ st.type_counts

/-- The item-level block never touches the bucket of a different category. -/
theorem itemBlock_lookup {α : Type} [DecidableEq α] (k : String) (t st' : LoopState α)
    (hok : (match t.generated_results, t.sample_results with
        | some g, some s =>
            Except.ok (addItem k (itemCounts g s).1 (itemCounts g s).2.1
              (itemCounts g s).2.2 t)
        | _, _ =>
            (Except.error "UnboundLocalError" : Except String (LoopState α)))
      = Except.ok st')
    (q : String) (hq : k ≠ q) :
    lookupType q st'.type_counts = lookupType q t.type_counts := by
  rcases hg : t.generated_results with _ | g <;> rw [hg] at hok
  · exact Except.noConfusion hok
  · rcases hs : t.sample_results with _ | s <;> rw [hs] at hok
    · exact Except.noConfusion hok
    · obtain rfl := Except.ok.inj hok
      exact lookupType_updateType_ne q k hq _ t.type_counts

/-- A loop iteration on a data point of a different category leaves the
category's bucket unchanged. -/
theorem processPoint_lookup_ne {α : Type} [DecidableEq α]
    (exec : String → Option (Finset α)) (st st' : LoopState α) (dp : DataPoint)
    (q : String) (hq : qtypeOf dp ≠ q)
    (hok : processPoint exec st dp = Except.ok st') :
    lookupType q st'.type_counts = lookupType q st.type_counts := by
  simp only [processPoint] at hok
  split_ifs at hok with ht
  · rw [itemBlock_lookup (qtypeOf dp) _ st' hok q hq,
      tryBlock_lookup_ne exec (qtypeOf dp) _ _ _ q hq]
    exact lookupType_ensureType_ne q (qtypeOf dp) hq st.type_counts
  · obtain rfl := Except.ok.inj hok
    exact lookupType_ensureType_ne q (qtypeOf dp) hq st.type_counts

/-- Main loop invariant for C10: when every data point of category `q` is
skipped by the guard, the bucket of `q` either keeps its entry value or holds
a freshly created zero bucket; and once a point of category `q` has been
processed, the bucket exists. -/
theorem runPoints_lookup {α : Type} [DecidableEq α] (exec : String → Option (Finset α))
    (q : String) (pts : List DataPoint) :
    ∀ (st st' : LoopState α),
      runPoints exec st pts = Except.ok st' →
      (∀ dp ∈ pts, qtypeOf dp = q → truthyCase dp = false) →
      ((lookupType q st'.type_counts = lookupType q st.type_counts ∨
        lookupType q st'.type_counts =
          some ((lookupType q st.type_counts).getD (Counts.zero, Counts.zero))) ∧
       ((∃ dp ∈ pts, qtypeOf dp = q) → (lookupType q st'.type_counts).isSome = true)) := by
  induction pts with
  | nil =>
    intro st st' hr _
    rw [runPoints_nil] at hr
    obtain rfl := Except.ok.inj hr
    refine ⟨Or.inl rfl, ?_⟩
    rintro ⟨dp, hdp, _⟩
    exact absurd hdp (List.not_mem_nil dp)
  | cons dp rest ih =>
    intro st st' hr hskip
    rw [runPoints_cons] at hr
    rcases hp : processPoint exec st dp with e | st1 <;> rw [hp] at hr
    · exact Except.noConfusion hr
    · have hskip1 : ∀ d ∈ rest, qtypeOf d = q → truthyCase d = false :=
        fun d hd hqd => hskip d (List.mem_cons_of_mem dp hd) hqd
      obtain ⟨ihd, ihs⟩ := ih st1 st' hr hskip1
      by_cases hq : qtypeOf dp = q
      · have hskipdp : truthyCase dp = false :=
          hskip dp (List.mem_cons_self dp rest) hq
        have hst1 : st1 = { st with type_counts := ensureType (qtypeOf dp) st.type_counts } := by
          have h2 := processPoint_of_not_truthy exec st dp hskipdp
          rw [hp] at h2
          exact Except.ok.inj h2
        have hlook1 : lookupType q st1.type_counts =
            some ((lookupType q st.type_counts).getD (Counts.zero, Counts.zero)) := by
          rw [hst1]
          dsimp only
          rw [hq]
          exact lookupType_ensureType_self q st.type_counts
        constructor
        · rcases ihd with h1 | h1
          · rw [h1, hlook1]
            exact Or.inr rfl
          · right
            rw [h1, hlook1, Option.getD_some]
        · intro _
          rcases ihd with h1 | h1
          · rw [h1, hlook1]
            rfl
          · rw [h1]
            rfl
      · have hne : lookupType q st1.type_counts = lookupType q st.type_counts :=
          processPoint_lookup_ne exec st st1 dp q hq hp
        constructor
        · rcases ihd with h1 | h1
          · exact Or.inl (h1.trans hne)
          · right
            rw [h1, hne]
        · rintro ⟨d, hd, hqd⟩
          rcases List.mem_cons.mp hd with rfl | hd1
          · exact absurd hqd hq
          · exact ihs ⟨d, hd1, hqd⟩

/-!
Verification of the claims.
-/

/-- Claim C5: for every pair of finite sets gold and candidate, the item-level
counts tp = |gold ∩ candidate|, fn = |gold − candidate|, fp = |candidate − gold|
computed by the comparator satisfy tp + fn = |gold| and tp + fp = |candidate|. -/
theorem itemCounts_partition {α : Type} [DecidableEq α] (gold cand : Finset α) :
    (itemCounts cand gold).1 + (itemCounts cand gold).2.1 = gold.card ∧
    (itemCounts cand gold).1 + (itemCounts cand gold).2.2 = cand.card := by
  constructor
  · simp only [itemCounts]
    rw [Finset.inter_comm]
    exact Finset.card_inter_add_card_sdiff gold cand
  · simp only [itemCounts]
    exact Finset.card_inter_add_card_sdiff cand gold

/-- Witness for C5 at gold = {1, 2} and candidate = {2, 3} over ℕ. -/
theorem itemCounts_partition_witness :
    (itemCounts ({2, 3} : Finset ℕ) {1, 2}).1 + (itemCounts ({2, 3} : Finset ℕ) {1, 2}).2.1
        = ({1, 2} : Finset ℕ).card ∧
    (itemCounts ({2, 3} : Finset ℕ) {1, 2}).1 + (itemCounts ({2, 3} : Finset ℕ) {1, 2}).2.2
        = ({2, 3} : Finset ℕ).card :=
  itemCounts_partition {1, 2} {2, 3}

/-- Claim C6: the accumulator's combine operation (field-wise addition of TP,
FN, FP, TN) is commutative and associative: folding a then b into the zero
counts equals folding b then a, and grouping of folds does not change the
result. -/
theorem counts_fold_comm_assoc (a b c : Counts) :
    Counts.add (Counts.add Counts.zero a) b = Counts.add (Counts.add Counts.zero b) a ∧
    Counts.add (Counts.add a b) c = Counts.add a (Counts.add b c) := by
  cases a; cases b; cases c
  refine ⟨?_, ?_⟩ <;> simp only [Counts.add, Counts.zero, Counts.mk.injEq] <;> omega

/-- Witness for C6 at concrete count records. -/
theorem counts_fold_comm_assoc_witness :
    Counts.add (Counts.add Counts.zero ⟨1, 2, 3, 4⟩) ⟨5, 6, 7, 8⟩ =
      Counts.add (Counts.add Counts.zero ⟨5, 6, 7, 8⟩) ⟨1, 2, 3, 4⟩ ∧
    Counts.add (Counts.add ⟨1, 2, 3, 4⟩ ⟨5, 6, 7, 8⟩) ⟨9, 10, 11, 12⟩ =
      Counts.add ⟨1, 2, 3, 4⟩ (Counts.add ⟨5, 6, 7, 8⟩ ⟨9, 10, 11, 12⟩) :=
  counts_fold_comm_assoc ⟨1, 2, 3, 4⟩ ⟨5, 6, 7, 8⟩ ⟨9, 10, 11, 12⟩

/-- Claim C3: `compute_metrics` returns support = TP+FN+FP+TN and, for each
derived metric, the stated ratio whenever its denominator is non-zero and
exactly 0 whenever its denominator is 0; being a total function over ℚ it
never raises and never produces NaN. -/
theorem compute_metrics_spec (c : Counts) :
    (compute_metrics c).support = (c.TP : ℚ) + (c.FN : ℚ) + (c.FP : ℚ) + (c.TN : ℚ)
    ∧ ((compute_metrics c).support ≠ 0 →
        (compute_metrics c).accuracy = ((c.TP : ℚ) + (c.TN : ℚ)) / (compute_metrics c).support
        ∧ (compute_metrics c).error_rate = 1 - (compute_metrics c).accuracy)
    ∧ ((compute_metrics c).support = 0 →
        (compute_metrics c).accuracy = 0 ∧ (compute_metrics c).error_rate = 0)
    ∧ ((c.TP : ℚ) + (c.FP : ℚ) ≠ 0 →
        (compute_metrics c).precision = (c.TP : ℚ) / ((c.TP : ℚ) + (c.FP : ℚ)))
    ∧ ((c.TP : ℚ) + (c.FP : ℚ) = 0 → (compute_metrics c).precision = 0)
    ∧ ((c.TP : ℚ) + (c.FN : ℚ) ≠ 0 →
        (compute_metrics c).recallScore = (c.TP : ℚ) / ((c.TP : ℚ) + (c.FN : ℚ)))
    ∧ ((c.TP : ℚ) + (c.FN : ℚ) = 0 → (compute_metrics c).recallScore = 0)
    ∧ ((compute_metrics c).precision + (compute_metrics c).recallScore ≠ 0 →
        (compute_metrics c).f1_score =
          2 * (compute_metrics c).precision * (compute_metrics c).recallScore /
            ((compute_metrics c).precision + (compute_metrics c).recallScore))
    ∧ ((compute_metrics c).precision + (compute_metrics c).recallScore = 0 →
        (compute_metrics c).f1_score = 0)
    ∧ ((c.TP : ℚ) + (c.FN : ℚ) ≠ 0 →
        (compute_metrics c).false_negative_rate = (c.FN : ℚ) / ((c.TP : ℚ) + (c.FN : ℚ)))
    ∧ ((c.TP : ℚ) + (c.FN : ℚ) = 0 → (compute_metrics c).false_negative_rate = 0)
    ∧ ((c.TP : ℚ) + (c.FP : ℚ) ≠ 0 →
        (compute_metrics c).false_positive_rate = (c.FP : ℚ) / ((c.TP : ℚ) + (c.FP : ℚ)))
    ∧ ((c.TP : ℚ) + (c.FP : ℚ) = 0 → (compute_metrics c).false_positive_rate = 0) := by
  dsimp only [compute_metrics]
  refine ⟨rfl, ?_, ?_, ?_, ?_, ?_, ?_, ?_, ?_, ?_, ?_, ?_, ?_⟩
  · intro h
    exact ⟨by simp [Counts.accuracy, h], by simp [Counts.error_rate, h]⟩
  · intro h
    exact ⟨by simp [Counts.accuracy, h], by simp [Counts.error_rate, h]⟩
  · intro h; simp [Counts.precision, h]
  · intro h; simp [Counts.precision, h]
  · intro h; simp [Counts.recallScore, h]
  · intro h; simp [Counts.recallScore, h]
  · intro h; simp [Counts.f1_score, h]
  · intro h; simp [Counts.f1_score, h]
  · intro h; simp [Counts.fnr, h]
  · intro h; simp [Counts.fnr, h]
  · intro h; simp [Counts.fpr, h]
  · intro h; simp [Counts.fpr, h]

/-- Witness for C3 at counts (TP, FN, FP, TN) = (1, 2, 3, 4), where every
denominator is non-zero. -/
theorem compute_metrics_spec_witness :
    (compute_metrics ⟨1, 2, 3, 4⟩).support ≠ 0 ∧
    (compute_metrics ⟨1, 2, 3, 4⟩).accuracy =
      (((⟨1, 2, 3, 4⟩ : Counts).TP : ℚ) + ((⟨1, 2, 3, 4⟩ : Counts).TN : ℚ)) /
        (compute_metrics ⟨1, 2, 3, 4⟩).support :=
  have h : (compute_metrics (⟨1, 2, 3, 4⟩ : Counts)).support ≠ 0 := by
    norm_num [compute_metrics, Counts.support]
  ⟨h, ((compute_metrics_spec ⟨1, 2, 3, 4⟩).2.1 h).1⟩

/-- A ratio of a non-negative numerator over a larger denominator lies in
[0, 1]; in ℚ a division by zero evaluates to 0, which also lies in [0, 1]. -/
theorem unitDiv (a b : ℚ) (h0 : 0 ≤ a) (hab : a ≤ b) : 0 ≤ a / b ∧ a / b ≤ 1 := by
  rcases lt_or_eq_of_le (le_trans h0 hab) with h | h
  · exact ⟨div_nonneg h0 (le_of_lt h), (div_le_one h).mpr hab⟩
  · rw [← h, div_zero]
    norm_num

/-- The accuracy value is in [0, 1]. -/
theorem accuracy_mem_unit (c : Counts) : 0 ≤ c.accuracy ∧ c.accuracy ≤ 1 := by
  unfold Counts.accuracy
  split_ifs with h
  · apply unitDiv
    · positivity
    · have hFN : (0 : ℚ) ≤ (c.FN : ℚ) := Nat.cast_nonneg _
      have hFP : (0 : ℚ) ≤ (c.FP : ℚ) := Nat.cast_nonneg _
      unfold Counts.support
      linarith
  · norm_num

/-- The error-rate value is in [0, 1]. -/
theorem error_rate_mem_unit (c : Counts) : 0 ≤ c.error_rate ∧ c.error_rate ≤ 1 := by
  unfold Counts.error_rate
  split_ifs with h
  · obtain ⟨h0, h1⟩ := accuracy_mem_unit c
    constructor <;> linarith
  · norm_num

/-- The precision value is in [0, 1]. -/
theorem precision_mem_unit (c : Counts) : 0 ≤ c.precision ∧ c.precision ≤ 1 := by
  unfold Counts.precision
  split_ifs with h
  · apply unitDiv
    · positivity
    · have hFP : (0 : ℚ) ≤ (c.FP : ℚ) := Nat.cast_nonneg _
      linarith
  · norm_num

/-- The recall value is in [0, 1]. -/
theorem recall_mem_unit (c : Counts) : 0 ≤ c.recallScore ∧ c.recallScore ≤ 1 := by
  unfold Counts.recallScore
  split_ifs with h
  · apply unitDiv
    · positivity
    · have hFN : (0 : ℚ) ≤ (c.FN : ℚ) := Nat.cast_nonneg _
      linarith
  · norm_num

/-- The F1 value is in [0, 1]. -/
theorem f1_mem_unit (c : Counts) : 0 ≤ c.f1_score ∧ c.f1_score ≤ 1 := by
  obtain ⟨hp0, hp1⟩ := precision_mem_unit c
  obtain ⟨hr0, hr1⟩ := recall_mem_unit c
  unfold Counts.f1_score
  split_ifs with h
  · apply unitDiv
    · positivity
    · nlinarith [mul_nonneg hp0 (sub_nonneg.mpr hr1), mul_nonneg hr0 (sub_nonneg.mpr hp1)]
  · norm_num

/-- The false-negative-rate value is in [0, 1]. -/
theorem fnr_mem_unit (c : Counts) : 0 ≤ c.fnr ∧ c.fnr ≤ 1 := by
  unfold Counts.fnr
  split_ifs with h
  · apply unitDiv
    · positivity
    · have hTP : (0 : ℚ) ≤ (c.TP : ℚ) := Nat.cast_nonneg _
      linarith
  · norm_num

/-- The false-positive-rate value is in [0, 1]. -/
theorem fpr_mem_unit (c : Counts) : 0 ≤ c.fpr ∧ c.fpr ≤ 1 := by
  unfold Counts.fpr
  split_ifs with h
  · apply unitDiv
    · positivity
    · have hTP : (0 : ℚ) ≤ (c.TP : ℚ) := Nat.cast_nonneg _
      linarith
  · norm_num

/-- Claim C9: for every counts record with non-negative integer entries, each
derived metric of `compute_metrics` — accuracy, error_rate, precision, recall,
f1_score, false_negative_rate, false_positive_rate — lies in [0, 1]. -/
theorem compute_metrics_unit_interval (c : Counts) :
    (0 ≤ (compute_metrics c).accuracy ∧ (compute_metrics c).accuracy ≤ 1) ∧
    (0 ≤ (compute_metrics c).error_rate ∧ (compute_metrics c).error_rate ≤ 1) ∧
    (0 ≤ (compute_metrics c).precision ∧ (compute_metrics c).precision ≤ 1) ∧
    (0 ≤ (compute_metrics c).recallScore ∧ (compute_metrics c).recallScore ≤ 1) ∧
    (0 ≤ (compute_metrics c).f1_score ∧ (compute_metrics c).f1_score ≤ 1) ∧
    (0 ≤ (compute_metrics c).false_negative_rate ∧
      (compute_metrics c).false_negative_rate ≤ 1) ∧
    (0 ≤ (compute_metrics c).false_positive_rate ∧
      (compute_metrics c).false_positive_rate ≤ 1) := by
  dsimp only [compute_metrics]
  exact ⟨accuracy_mem_unit c, error_rate_mem_unit c, precision_mem_unit c,
    recall_mem_unit c, f1_mem_unit c, fnr_mem_unit c, fpr_mem_unit c⟩

/-- Witness for C9 at counts (1, 1, 1, 1): the accuracy and F1 values of a
concrete record lie in [0, 1]. -/
theorem compute_metrics_unit_interval_witness :
    (0 ≤ (compute_metrics ⟨1, 1, 1, 1⟩).accuracy ∧
      (compute_metrics ⟨1, 1, 1, 1⟩).accuracy ≤ 1) ∧
    (0 ≤ (compute_metrics ⟨1, 1, 1, 1⟩).f1_score ∧
      (compute_metrics ⟨1, 1, 1, 1⟩).f1_score ≤ 1) :=
  ⟨(compute_metrics_unit_interval ⟨1, 1, 1, 1⟩).1,
    (compute_metrics_unit_interval ⟨1, 1, 1, 1⟩).2.2.2.2.1⟩

/-- Claim C1 (refuting the item-level part): the item-level block of
`calculate_counts` sits outside the `try/except`, so a case whose candidate
query raises still adds the stale item counts of the previous case.  Here the
first case succeeds with matching singleton results (item TP 1) and the second
case's candidate query raises: the query level gets TP 1, FN 1 as the claim
says, but the overall item TP ends at 2, not 1 — the failed case contributed
a non-zero item-level count. -/
theorem failed_case_stale_item_counts :
    (calculate_counts
        (fun q : String =>
          if q = "CAND1" then some ({1} : Finset ℕ)
          else if q = "GOLD" then some {1} else none)
        [⟨some "CAND1", none, some "GOLD", some "t"⟩,
         ⟨some "CAND2", none, some "GOLD", some "t"⟩]).map
      (fun st =>
        (st.overall_query.TP, st.overall_query.FN,
          st.overall_item.TP, st.overall_item.FN, st.overall_item.FP))
      = Except.ok (1, 1, 2, 0, 0) := by
  rfl

/-- Claim C2 (refuting): when the very first case's candidate query raises,
the `except` clause records the query-level FN, but the item-level block then
reads the never-assigned local `generated_results`, raising
`UnboundLocalError` out of `calculate_counts` and aborting the batch. -/
theorem first_case_failure_aborts :
    calculate_counts (fun _ : String => (none : Option (Finset ℕ)))
        [⟨some "q", none, some "g", some "t"⟩]
      = Except.error "UnboundLocalError" := by
  rfl

/-- Counterexample to claim C7: a case whose gold query is absent is skipped
by the guard `if sparql_response and sample_query:`; its category bucket is
created with all-zero counts and the query-level FN stays 0, not 1. -/
theorem malformed_case_counterexample :
    (calculate_counts (fun _ : String => (none : Option (Finset ℕ)))
        [⟨some "q", none, none, some "t"⟩]).map
      (fun st => (st.overall_query.FN, lookupType "t" st.type_counts))
      = Except.ok (0, some (Counts.zero, Counts.zero)) := by
  rfl

/-- Claim C7 (amended): a test case whose gold or candidate query string is
absent or empty is not scored at all — it is skipped, contributing zero to
the query-level and item-level counts of every bucket; only its category
bucket is created (with zero counts) before the guard. -/
theorem malformed_case_skipped {α : Type} [DecidableEq α]
    (exec : String → Option (Finset α)) (st : LoopState α) (dp : DataPoint)
    (h : truthyCase dp = false) :
    processPoint exec st dp =
      Except.ok { st with type_counts := ensureType (qtypeOf dp) st.type_counts } :=
  processPoint_of_not_truthy exec st dp h

/-- Witness for the amended C7 at a concrete malformed case (gold absent). -/
theorem malformed_case_skipped_witness :
    truthyCase ⟨some "q", none, none, some "t"⟩ = false ∧
    processPoint (fun _ : String => (none : Option (Finset ℕ))) (initState ℕ)
        ⟨some "q", none, none, some "t"⟩ =
      Except.ok { initState ℕ with
        type_counts := ensureType (qtypeOf ⟨some "q", none, none, some "t"⟩)
          (initState ℕ).type_counts } :=
  ⟨by decide, malformed_case_skipped _ _ _ (by decide)⟩

/-- Claim C8: for every yes/no case (boolean `deepseek-answer`), both sides
are normalized to singleton sets before the set arithmetic; in particular a
case with gold answer YES and candidate boolean False yields item counts
tp = 0, fn = 1, fp = 1. -/
theorem yesno_normalization (dp : DSPoint) (b : Bool)
    (h : dp.deepseek_answer = DSAnswer.bool b) :
    ((normalizedSides dp).1.card = 1 ∧ (normalizedSides dp).2.card = 1) ∧
    caseCounts ⟨none, some (AnswerVal.list ["YES"]), DSAnswer.bool false⟩ = (0, 1, 1) := by
  refine ⟨?_, by decide⟩
  cases dp with
  | mk qt a d =>
    cases h
    refine ⟨?_, ?_⟩
    · dsimp [normalizedSides]
      split_ifs <;> simp
    · dsimp [normalizedSides]
      cases b <;> simp

/-- Witness for C8 at a concrete yes/no case (gold YES, candidate True). -/
theorem yesno_normalization_witness :
    ((normalizedSides ⟨none, some (AnswerVal.list ["YES"]), DSAnswer.bool true⟩).1.card = 1 ∧
      (normalizedSides ⟨none, some (AnswerVal.list ["YES"]), DSAnswer.bool true⟩).2.card = 1) ∧
    caseCounts ⟨none, some (AnswerVal.list ["YES"]), DSAnswer.bool false⟩ = (0, 1, 1) :=
  yesno_normalization ⟨none, some (AnswerVal.list ["YES"]), DSAnswer.bool true⟩ true rfl

/-- Claim C4: after accumulating any dataset (whenever the pass completes),
the query-level TN and FP counts are 0 in the overall bucket and in every
category bucket: the only query-level outcomes ever produced are
true-positive (exact result-set equality) and false-negative. -/
theorem query_level_TN_FP_zero {α : Type} [DecidableEq α]
    (exec : String → Option (Finset α)) (pts : List DataPoint) (st : LoopState α)
    (h : calculate_counts exec pts = Except.ok st) :
    st.overall_query.TN = 0 ∧ st.overall_query.FP = 0 ∧
    ∀ p ∈ st.type_counts, p.2.1.TN = 0 ∧ p.2.1.FP = 0 :=
  qinv_runPoints exec pts (initState α) st ⟨rfl, rfl, by simp [initState]⟩ h

/-- Witness for C4 on a one-case dataset whose both queries succeed with
equal result sets. -/
theorem query_level_TN_FP_zero_witness :
    (calculate_counts (fun _ : String => some (∅ : Finset ℕ))
        [⟨some "c", none, some "g", some "t"⟩]
      = Except.ok (⟨⟨1, 0, 0, 0⟩, ⟨0, 0, 0, 0⟩, [("t", ⟨1, 0, 0, 0⟩, ⟨0, 0, 0, 0⟩)],
          some ∅, some ∅⟩ : LoopState ℕ)) ∧
    (⟨⟨1, 0, 0, 0⟩, ⟨0, 0, 0, 0⟩, [("t", ⟨1, 0, 0, 0⟩, ⟨0, 0, 0, 0⟩)],
        some ∅, some ∅⟩ : LoopState ℕ).overall_query.TN = 0 ∧
    (⟨⟨1, 0, 0, 0⟩, ⟨0, 0, 0, 0⟩, [("t", ⟨1, 0, 0, 0⟩, ⟨0, 0, 0, 0⟩)],
        some ∅, some ∅⟩ : LoopState ℕ).overall_query.FP = 0 :=
  have h : calculate_counts (fun _ : String => some (∅ : Finset ℕ))
      [⟨some "c", none, some "g", some "t"⟩]
    = Except.ok (⟨⟨1, 0, 0, 0⟩, ⟨0, 0, 0, 0⟩, [("t", ⟨1, 0, 0, 0⟩, ⟨0, 0, 0, 0⟩)],
        some ∅, some ∅⟩ : LoopState ℕ) := by rfl
  ⟨h, (query_level_TN_FP_zero _ _ _ h).1, (query_level_TN_FP_zero _ _ _ h).2.1⟩

/-- Claim C10: a category bucket is created with all-zero counts on first
encounter of the category, before the missing-query guard; hence a category
all of whose cases are skipped for missing queries still appears in the
per-category dict with zero counts, and `compute_metrics` on the zero counts
yields 0 for every metric. -/
theorem skipped_category_in_output {α : Type} [DecidableEq α]
    (exec : String → Option (Finset α)) (pts : List DataPoint) (st : LoopState α)
    (q : String) (hok : calculate_counts exec pts = Except.ok st)
    (hmem : ∃ dp ∈ pts, qtypeOf dp = q)
    (hskip : ∀ dp ∈ pts, qtypeOf dp = q → truthyCase dp = false) :
    lookupType q st.type_counts = some (Counts.zero, Counts.zero) ∧
    compute_metrics Counts.zero = ⟨0, 0, 0, 0, 0, 0, 0, 0⟩ := by
  obtain ⟨hd, hs⟩ := runPoints_lookup exec q pts (initState α) st hok hskip
  constructor
  · rcases hd with h1 | h1
    · exfalso
      have h2 := hs hmem
      rw [h1] at h2
      exact Bool.noConfusion h2
    · rw [h1]
      rfl
  · simp [compute_metrics, Counts.support, Counts.accuracy, Counts.error_rate,
      Counts.precision, Counts.recallScore, Counts.f1_score, Counts.fnr, Counts.fpr,
      Counts.zero, Metrics.mk.injEq]

/-- Witness for C10 on a one-case dataset whose single case of category t
has both query strings absent. -/
theorem skipped_category_in_output_witness :
    (calculate_counts (fun _ : String => (none : Option (Finset ℕ)))
        [⟨none, none, none, some "t"⟩]
      = Except.ok (⟨Counts.zero, Counts.zero, [("t", Counts.zero, Counts.zero)],
          none, none⟩ : LoopState ℕ)) ∧
    lookupType "t" (⟨Counts.zero, Counts.zero, [("t", Counts.zero, Counts.zero)],
        none, none⟩ : LoopState ℕ).type_counts = some (Counts.zero, Counts.zero) :=
  have h : calculate_counts (fun _ : String => (none : Option (Finset ℕ)))
      [⟨none, none, none, some "t"⟩]
    = Except.ok (⟨Counts.zero, Counts.zero, [("t", Counts.zero, Counts.zero)],
        none, none⟩ : LoopState ℕ) := by rfl
  ⟨h, (skipped_category_in_output _ _ _ "t" h (by decide) (by decide)).1⟩

end KGQA
